import Mathlib

/-!
Shallow embedding of the capture-to-translation pipeline and local-server
supervisor of the screen-translate repository (src/main.rs, src/clipboard.rs,
src/translator.rs, src/server.rs), together with theorems settling the
specification claims about it.
-/

namespace ScreenTranslate

/-- Substring containment, modelling Rust `str::contains` (clipboard.rs uses it
on `api_url` and on formatted error strings).  `containsSubstr s pat` is true
iff `pat` occurs contiguously anywhere inside `s`. -/
def containsSubstr (s pat : String) : Bool :=
  decide (pat.data <:+: s.data)

/-- Rust `str::trim`, modelled at character granularity: drop whitespace
characters from both ends of the string (main.rs line 185 `text.trim()`). -/
def rustTrim (s : String) : String :=
  String.mk ((s.data.dropWhile Char.isWhitespace).reverse.dropWhile
    Char.isWhitespace).reverse

/-- Rust `String::len`: the length of the string in UTF-8 bytes, not in
characters (main.rs line 186 `trimmed.len()`). -/
def rustLen (s : String) : Nat :=
  s.data.foldr (fun c r => c.utf8Size + r) 0

/-- Status constant from server.rs line 10: `pub const SERVER_STARTING: u8 = 0;`. -/
def SERVER_STARTING : Nat := 0

/-- Status constant from server.rs line 11: `pub const SERVER_READY: u8 = 1;`. -/
def SERVER_READY : Nat := 1

/-- Status constant from server.rs line 12: `pub const SERVER_FAILED: u8 = 2;`. -/
def SERVER_FAILED : Nat := 2

/-- SelectionPos from clipboard.rs lines 7-13: four i32 screen coordinates. -/
structure SelectionPos where
  down_x : Int
  down_y : Int
  up_x : Int
  up_y : Int
deriving DecidableEq, Repr

/-- TranslationRequest from clipboard.rs lines 15-18. -/
structure TranslationRequest where
  text : String
  pos : SelectionPos
deriving DecidableEq, Repr

/-- TranslationResult from clipboard.rs lines 20-24. -/
structure TranslationResult where
  original : String
  translated : String
  pos : SelectionPos
deriving DecidableEq, Repr

/-- clipboard.rs line 42: the worker computes once, before its receive loop,
whether the endpoint is local:
`api_url.contains("localhost") || api_url.contains("127.0.0.1")`. -/
def isLocalUrl (api_url : String) : Bool :=
  containsSubstr api_url "localhost" || containsSubstr api_url "127.0.0.1"

/-- clipboard.rs lines 66-72: substring test deciding whether a formatted
transport error indicates a connectivity failure. -/
def isConnError (error_str : String) : Bool :=
  containsSubstr error_str "Connection refused"
  || containsSubstr error_str "connect"
  || containsSubstr error_str "timed out"
  || containsSubstr error_str "timeout"
  || containsSubstr error_str "500"
  || containsSubstr error_str "503"
  || containsSubstr error_str "model"

/-- clipboard.rs lines 62-64: the fixed ServerNotStarted guidance message. -/
def serverNotStartedMsg : String :=
  "⚠️ LibreTranslate failed to start\nCheck libretranslate.log in app data folder"

/-- clipboard.rs lines 77-80: the ServerStillLoading message. -/
def stillLoadingMsg : String :=
  "⏳ LibreTranslate is loading...\nFirst launch may take a few minutes\nto download language models"

/-- clipboard.rs lines 82-85: the ServerCrashedOrUnreachable message. -/
def crashedMsg : String :=
  "⚠️ Cannot connect to LibreTranslate\nServer may have crashed.\nCheck libretranslate.log for details"

/-- clipboard.rs lines 87-89: the generic local-unavailable message. -/
def localUnavailableMsg : String :=
  "⚠️ Translation Unavailable\nCheck if app installed correctly"

/-- clipboard.rs line 92: the RemoteApiError message carrying the underlying
error text: `format!("⚠️ API Error:\n{}", e)`. -/
def apiErrorMsg (error_str : String) : String :=
  "⚠️ API Error:\n" ++ error_str

/-- Failure classification of the Translation Worker, clipboard.rs lines
58-93: from the current server status (the `AtomicU8` loaded at failure time),
the startup-computed `is_local` flag, and the formatted transport error. -/
def classifyError (status : Nat) (is_local : Bool) (error_str : String) : String :=
  if status == SERVER_FAILED then
    serverNotStartedMsg
  else if is_local then
    if isConnError error_str && (status == SERVER_STARTING) then
      stillLoadingMsg
    else if isConnError error_str then
      crashedMsg
    else
      localUnavailableMsg
  else
    apiErrorMsg error_str

/-- Handling of one received TranslationRequest by the worker loop,
clipboard.rs lines 46-100: the outcome of `translator.translate(&req.text)`
either succeeds with the translated text or fails with a formatted error. -/
def processRequest (is_local : Bool) (status : Nat) (req : TranslationRequest)
    (outcome : Except String String) : TranslationResult :=
  match outcome with
  | Except.ok translated =>
      { original := req.text, translated := translated, pos := req.pos }
  | Except.error e =>
      { original := req.text, translated := classifyError status is_local e, pos := req.pos }

/-- One iteration of the worker receive loop: the request received, the outcome
of its translate call, and the server status the worker would load were the
call to fail (clipboard.rs line 58 reads the status at failure time). -/
structure WorkerStep where
  req : TranslationRequest
  outcome : Except String String
  status : Nat
deriving Repr

/-- The worker receive loop of spawn_translation_thread, clipboard.rs lines
45-102: each received request is processed and exactly one result is sent.
The `is_local` flag is computed once from `api_url` before the loop and used
unchanged for every request. -/
def workerRun (api_url : String) (steps : List WorkerStep) : List TranslationResult :=
  steps.map (fun s => processRequest (isLocalUrl api_url) s.status s.req s.outcome)

/-- server.rs lines 484-486: a port is available iff a TCP connect to
127.0.0.1 on it fails.  `connectOk p` models whether the connect succeeds
(i.e. the port is occupied by a listener). -/
def is_port_available (connectOk : Nat → Bool) (port : Nat) : Bool :=
  !(connectOk port)

/-- server.rs lines 56-62: probe the 10 consecutive ports
`preferred..preferred+10` in ascending order and pick the first available
one: `(preferred_port..preferred_port + 10).find(|&p| is_port_available(p))`. -/
def findPort (connectOk : Nat → Bool) (preferred : Nat) : Option Nat :=
  (List.range' preferred 10).find? (is_port_available connectOk)

/-- Error cases of LibreTranslateServer::start_impl (server.rs 47-212). -/
inductive StartError where
  | executableNotFound
  | portExhausted
  | spawnFailed
deriving DecidableEq, Repr

/-- Successful result of start_impl: a spawned server bound to `port`. -/
structure SpawnedServer where
  port : Nat
deriving DecidableEq, Repr

/-- Model of LibreTranslateServer::start_impl (server.rs lines 47-212) at the
granularity of its fallible stages: executable discovery (external, modelled by
`exeFound`), port negotiation (lines 56-62, the `?` on the `ok_or_else`
aborts with the PortExhausted error before any spawn), and the spawn itself
(external, modelled by `spawnOk`). -/
def start_impl (exeFound spawnOk : Bool) (connectOk : Nat → Bool)
    (preferred : Nat) : Except StartError SpawnedServer :=
  if !exeFound then
    Except.error StartError.executableNotFound
  else
    match findPort connectOk preferred with
    | none => Except.error StartError.portExhausted
    | some p =>
        if spawnOk then Except.ok { port := p }
        else Except.error StartError.spawnFailed

/-- Result of the non-blocking `child.try_wait()` exit check in the readiness
monitor (server.rs lines 512-536): the process exited, is still running, or
the check itself errored. -/
inductive ExitCheck where
  | exited
  | running
  | checkErr
deriving DecidableEq, Repr

/-- The readiness budget, server.rs line 502:
`let max_wait = Duration::from_secs(180)`, in milliseconds. -/
def MAX_WAIT_MS : Nat := 180000

/-- What one iteration of the readiness-monitor loop observes (server.rs lines
506-559): the exit check, the liveness probe `is_libretranslate_running port`,
and the total elapsed time `start.elapsed()` in milliseconds. -/
structure MonitorObs where
  exit : ExitCheck
  probeOk : Bool
  elapsedMs : Nat
deriving DecidableEq, Repr

/-- The readiness-monitor loop of spawn_readiness_monitor (server.rs lines
506-560), as the list of status writes it performs on a trace of per-iteration
observations.  Each iteration: if the exit check reports exit or errors, write
SERVER_FAILED and return; else if the liveness probe succeeds, write
SERVER_READY and return; else if elapsed exceeds the 180s budget, write
SERVER_FAILED and return; else loop.  An exhausted finite trace models a
monitor still looping. -/
def monitorWrites : List MonitorObs → List Nat
  | [] => []
  | o :: rest =>
    match o.exit with
    | ExitCheck.exited => [SERVER_FAILED]
    | ExitCheck.checkErr => [SERVER_FAILED]
    | ExitCheck.running =>
        if o.probeOk then [SERVER_READY]
        else if MAX_WAIT_MS < o.elapsedMs then [SERVER_FAILED]
        else monitorWrites rest

/-- An observation on which the monitor iteration writes a status and stops. -/
def terminalObs (o : MonitorObs) : Bool :=
  !(o.exit == ExitCheck.running) || o.probeOk || decide (MAX_WAIT_MS < o.elapsedMs)

/-- The status a terminal iteration writes: SERVER_READY exactly when the
process was still running and the liveness probe succeeded, SERVER_FAILED on
exit, failed exit check, or budget exhaustion. -/
def writeOf (o : MonitorObs) : Nat :=
  if o.exit == ExitCheck.running && o.probeOk then SERVER_READY else SERVER_FAILED

/-- One pass of the grab thread for one settled selection, main.rs lines
184-191: `grabbed` is the clipboard text obtained by grab_selection (none on
timeout/empty clipboard).  The text is trimmed and forwarded iff its byte
length is within [2, max_text_length] and it differs from the single-slot
dedup cache `last_text`; on acceptance the cache is updated to the trimmed
text.  Returns the emitted request (if any) and the new cache value. -/
def captureStep (max_text_length : Nat) (last_text : String)
    (grabbed : Option String) (pos : SelectionPos) :
    Option TranslationRequest × String :=
  match grabbed with
  | none => (none, last_text)
  | some text =>
    let trimmed := rustTrim text
    if 2 ≤ rustLen trimmed ∧ rustLen trimmed ≤ max_text_length ∧ trimmed ≠ last_text then
      (some { text := trimmed, pos := pos }, trimmed)
    else
      (none, last_text)

/-- The grab thread's loop over a sequence of settled selections (main.rs
lines 176-194), threading the dedup cache and collecting emitted requests. -/
def captureRun (max_text_length : Nat) :
    String → List (Option String × SelectionPos) → List TranslationRequest × String
  | last_text, [] => ([], last_text)
  | last_text, (g, p) :: rest =>
    let step := captureStep max_text_length last_text g p
    let restRun := captureRun max_text_length step.2 rest
    (step.1.toList ++ restRun.1, restRun.2)

/-- Debouncer state of the main loop, main.rs lines 208-213. -/
structure DebounceState where
  debounce_start : Option Nat
  pending_pos : SelectionPos
  last_click_time : Option Nat
  last_click_x : Int
  last_click_y : Int
deriving DecidableEq, Repr

/-- main.rs line 210: the debounce interval is the configured poll_interval_ms
with a floor of 50 milliseconds: `config.poll_interval_ms.max(50)`. -/
def debounceMs (poll_interval_ms : Nat) : Nat :=
  max poll_interval_ms 50

/-- Handling of one MouseEvent::SelectionDone in the main loop, main.rs lines
224-251, at time `now` (milliseconds on a monotonic clock).  When monitoring,
the pending position is overwritten unconditionally; a drag (displacement over
5px) arms the debounce timer; otherwise the click is compared against the
previous click (double-click interval and 10px proximity) and a double-click
also arms the timer. -/
def onSelectionDone (dblclick_ms : Nat) (monitoring : Bool) (st : DebounceState)
    (now : Nat) (p : SelectionPos) : DebounceState :=
  if monitoring then
    let st1 := { st with pending_pos := p }
    let dx := (p.up_x - p.down_x).natAbs
    let dy := (p.up_y - p.down_y).natAbs
    if 5 < dx ∨ 5 < dy then
      { st1 with debounce_start := some now }
    else
      let is_dbl :=
        match st1.last_click_time with
        | some prev =>
            decide (now - prev ≤ dblclick_ms)
            && decide ((p.up_x - st1.last_click_x).natAbs < 10)
            && decide ((p.up_y - st1.last_click_y).natAbs < 10)
        | none => false
      let st2 := { st1 with last_click_time := some now,
                            last_click_x := p.up_x, last_click_y := p.up_y }
      if is_dbl then { st2 with debounce_start := some now } else st2
  else st

/-- Folding a timed sequence of SelectionDone events through the debouncer. -/
def processSelections (dblclick_ms : Nat) (monitoring : Bool)
    (st : DebounceState) (events : List (Nat × SelectionPos)) : DebounceState :=
  events.foldl (fun s e => onSelectionDone dblclick_ms monitoring s e.1 e.2) st

/-- Timer check of the main loop, main.rs lines 259-264, at time `now`: if the
timer is armed and `debounce_ms` has elapsed since arming, disarm and emit one
settled signal carrying the pending position. -/
def timerFire (poll_interval_ms : Nat) (st : DebounceState) (now : Nat) :
    Option SelectionPos × DebounceState :=
  match st.debounce_start with
  | some start =>
      if debounceMs poll_interval_ms ≤ now - start then
        (some st.pending_pos, { st with debounce_start := none })
      else
        (none, st)
  | none => (none, st)

/-- An HTTP response from the translation backend: status code and body. -/
structure HttpResponse where
  status : Nat
  body : String
deriving DecidableEq, Repr

/-- reqwest `StatusCode::is_success()`: status in 200..=299. -/
def statusIsSuccess (status : Nat) : Bool :=
  200 ≤ status && status ≤ 299

/-- The JSON body POSTed by Translator::translate, translator.rs lines 6-13
and 57-62: `q`, `source`, `target` (read fresh from the shared TargetLanguage
per request) and the optional `api_key`. -/
structure TranslateHttpRequest where
  q : String
  source : String
  target : String
  api_key : Option String
deriving DecidableEq, Repr

/-- Models serde_json deserialization of TranslateResponse (translator.rs
lines 15-19, camelCase field `translatedText`) for bodies of the exact shape
`\x7b"translatedText":"..."\x7d` whose payload contains no escape or quote
characters; other bodies are rejected. -/
def parseTranslatedText (body : String) : Option String :=
  let cs := body.data
  let pre := "\x7b\"translatedText\":\"".data
  let suf := "\"\x7d".data
  if pre.isPrefixOf cs then
    let rest := cs.drop pre.length
    if suf.isSuffixOf rest then
      let mid := rest.take (rest.length - suf.length)
      if mid.all (fun c => c ≠ '"' ∧ c ≠ '\\') then some (String.mk mid) else none
    else none
  else none

/-- Models serde_json deserialization of ErrorResponse (translator.rs lines
21-24) for bodies of the exact shape `\x7b"error":"..."\x7d` without escapes. -/
def parseErrorBody (body : String) : Option String :=
  let cs := body.data
  let pre := "\x7b\"error\":\"".data
  let suf := "\"\x7d".data
  if pre.isPrefixOf cs then
    let rest := cs.drop pre.length
    if suf.isSuffixOf rest then
      let mid := rest.take (rest.length - suf.length)
      if mid.all (fun c => c ≠ '"' ∧ c ≠ '\\') then some (String.mk mid) else none
    else none
  else none

/-- Translator::translate, translator.rs lines 55-77: build the request body
with the per-request target language, send it to the backend (modelled as a
function from the request body to an HttpResponse), and on a success status
decode `translatedText`; on a failure status produce the formatted error
carrying the body's `error` field when it parses, or the raw body otherwise. -/
def translate (backend : TranslateHttpRequest → HttpResponse)
    (source_lang target_lang : String) (api_key : Option String)
    (text : String) : Except String String :=
  let resp := backend { q := text, source := source_lang, target := target_lang,
                        api_key := api_key }
  if statusIsSuccess resp.status then
    match parseTranslatedText resp.body with
    | some t => Except.ok t
    | none => Except.error "error decoding response body"
  else
    match parseErrorBody resp.body with
    | some e =>
        Except.error ("LibreTranslate error (" ++ toString resp.status ++ "): " ++ e)
    | none =>
        Except.error ("LibreTranslate HTTP " ++ toString resp.status ++ ": " ++ resp.body)

/-- Status writes performed during startup by main (main.rs lines 117-155):
the status cell is created holding SERVER_READY (line 120); when the local
server is disabled or an instance is already running on the configured port,
no write ever occurs; otherwise SERVER_STARTING is written immediately before
the spawn attempt, and then either the readiness monitor's writes follow (on
successful spawn) or SERVER_FAILED is written (on spawn error). -/
def mainStatusWrites (start_local_server already_running spawn_ok : Bool)
    (monitor : List Nat) : List Nat :=
  if !start_local_server then []
  else if already_running then []
  else SERVER_STARTING :: (if spawn_ok then monitor else [SERVER_FAILED])

/-- The value held by the status cell after a list of writes, starting from
its initial value SERVER_READY (main.rs line 120). -/
def statusAfter (writes : List Nat) : Nat :=
  writes.foldl (fun _ w => w) SERVER_READY

/-! Helper lemmas. -/

/-- A string with prefix `p` cannot equal a string of which `p` is not a
prefix. -/
theorem ne_of_prefix_mismatch (p e m : String) (h : ¬ (p.data <+: m.data)) :
    p ++ e ≠ m := by
  intro hc
  apply h
  rw [← hc, String.data_append]
  exact List.prefix_append p.data e.data

/-- Field characterization of processRequest: the original text and position
travel unchanged from request to result; the translated field holds the
backend text on success and the classified message on failure. -/
theorem processRequest_spec (il : Bool) (st : Nat) (req : TranslationRequest)
    (oc : Except String String) :
    (processRequest il st req oc).original = req.text ∧
    (processRequest il st req oc).pos = req.pos ∧
    (∀ t, oc = Except.ok t → (processRequest il st req oc).translated = t) ∧
    (∀ e, oc = Except.error e →
      (processRequest il st req oc).translated = classifyError st il e) := by
  cases oc <;> simp [processRequest]

/-! Claim theorems. -/

/-- C1: failure classification in the Translation Worker follows the
four-branch decision rule: for every failed translate call, if ServerStatus is
Failed the result carries the fixed ServerNotStarted guidance message
regardless of the transport error; else if the endpoint is loopback, the
transport error indicates connectivity failure, and ServerStatus is Starting,
it carries the ServerStillLoading message; else if the endpoint is loopback
and the transport error indicates connectivity failure, it carries the
ServerCrashedOrUnreachable message; else if the endpoint is loopback it
carries a generic local-unavailable message; otherwise (non-loopback) it
carries the RemoteApiError message containing the underlying error message. -/
theorem failure_classification_rule (status : Nat) (is_local : Bool)
    (req : TranslationRequest) (e : String) :
    (status = SERVER_FAILED →
      (processRequest is_local status req (Except.error e)).translated =
        serverNotStartedMsg) ∧
    (status ≠ SERVER_FAILED → is_local = true → isConnError e = true →
      status = SERVER_STARTING →
      (processRequest is_local status req (Except.error e)).translated =
        stillLoadingMsg) ∧
    (status ≠ SERVER_FAILED → is_local = true → isConnError e = true →
      status ≠ SERVER_STARTING →
      (processRequest is_local status req (Except.error e)).translated =
        crashedMsg) ∧
    (status ≠ SERVER_FAILED → is_local = true → isConnError e = false →
      (processRequest is_local status req (Except.error e)).translated =
        localUnavailableMsg) ∧
    (status ≠ SERVER_FAILED → is_local = false →
      (processRequest is_local status req (Except.error e)).translated =
        apiErrorMsg e) := by
  refine ⟨?_, ?_, ?_, ?_, ?_⟩ <;>
    intros <;>
    simp_all [processRequest, classifyError, beq_iff_eq]

/-- Witness for C1: all five branches at concrete inputs. -/
theorem failure_classification_rule_witness :
    (processRequest true SERVER_FAILED
      { text := "hi", pos := { down_x := 0, down_y := 0, up_x := 0, up_y := 0 } }
      (Except.error "x")).translated = serverNotStartedMsg ∧
    (processRequest true SERVER_STARTING
      { text := "hi", pos := { down_x := 0, down_y := 0, up_x := 0, up_y := 0 } }
      (Except.error "timeout")).translated = stillLoadingMsg ∧
    (processRequest true SERVER_READY
      { text := "hi", pos := { down_x := 0, down_y := 0, up_x := 0, up_y := 0 } }
      (Except.error "timeout")).translated = crashedMsg ∧
    (processRequest true SERVER_READY
      { text := "hi", pos := { down_x := 0, down_y := 0, up_x := 0, up_y := 0 } }
      (Except.error "bad json")).translated = localUnavailableMsg ∧
    (processRequest false SERVER_READY
      { text := "hi", pos := { down_x := 0, down_y := 0, up_x := 0, up_y := 0 } }
      (Except.error "oops")).translated = apiErrorMsg "oops" :=
  ⟨(failure_classification_rule SERVER_FAILED true _ "x").1 rfl,
   (failure_classification_rule SERVER_STARTING true _ "timeout").2.1
     (by decide) rfl (by decide) rfl,
   (failure_classification_rule SERVER_READY true _ "timeout").2.2.1
     (by decide) rfl (by decide) (by decide),
   (failure_classification_rule SERVER_READY true _ "bad json").2.2.2.1
     (by decide) rfl (by decide),
   (failure_classification_rule SERVER_READY false _ "oops").2.2.2.2
     (by decide) rfl⟩

/-- C10: whether the endpoint is treated as loopback is a pure substring test
on the configured api_url — loopback iff the url contains "localhost" or
"127.0.0.1" anywhere — computed once from the url and used unchanged for
every request handled by the worker run, and a non-local URL containing either
substring in its path is classified as loopback. -/
theorem loopback_flag_substring (url : String) :
    (isLocalUrl url = true ↔
      ("localhost".data <:+: url.data ∨ "127.0.0.1".data <:+: url.data)) ∧
    isLocalUrl "https://example.com/api/127.0.0.1/translate" = true ∧
    (∀ steps : List WorkerStep, workerRun url steps =
      steps.map (fun s => processRequest (isLocalUrl url) s.status s.req s.outcome)) :=
  ⟨by simp [isLocalUrl, containsSubstr], by decide, fun _ => rfl⟩

/-- C8: the status cell is initialized to SERVER_READY and written to
SERVER_STARTING only immediately before a spawn attempt; when the local server
is disabled or already running, no write occurs, the status stays SERVER_READY
for the whole run, and with status SERVER_READY the worker can never classify
a failure as ServerStillLoading or ServerNotStarted. -/
theorem status_stays_ready (start_local already spawn_ok : Bool)
    (monitor : List Nat) (h : start_local = false ∨ already = true) :
    mainStatusWrites start_local already spawn_ok monitor = [] ∧
    statusAfter (mainStatusWrites start_local already spawn_ok monitor) =
      SERVER_READY ∧
    (∀ (is_local : Bool) (e : String),
      classifyError SERVER_READY is_local e ≠ stillLoadingMsg ∧
      classifyError SERVER_READY is_local e ≠ serverNotStartedMsg) := by
  have hw : mainStatusWrites start_local already spawn_ok monitor = [] := by
    rcases h with h | h <;> simp [mainStatusWrites, h]
  refine ⟨hw, by rw [hw]; rfl, ?_⟩
  intro is_local e
  cases is_local with
  | false =>
      constructor
      · exact ne_of_prefix_mismatch "⚠️ API Error:\n" e stillLoadingMsg (by decide)
      · exact ne_of_prefix_mismatch "⚠️ API Error:\n" e serverNotStartedMsg (by decide)
  | true =>
      by_cases hc : isConnError e = true
      · simp [classifyError, hc, SERVER_READY, SERVER_FAILED, SERVER_STARTING,
          crashedMsg, stillLoadingMsg, serverNotStartedMsg]
      · simp [classifyError, hc, SERVER_READY, SERVER_FAILED, SERVER_STARTING,
          localUnavailableMsg, stillLoadingMsg, serverNotStartedMsg]

/-- Witness for C8: local server disabled at a concrete configuration. -/
theorem status_stays_ready_witness :
    mainStatusWrites false false true [SERVER_READY] = [] ∧
    statusAfter (mainStatusWrites false false true [SERVER_READY]) = SERVER_READY ∧
    classifyError SERVER_READY false "oops" ≠ stillLoadingMsg :=
  have h := status_stays_ready false false true [SERVER_READY] (Or.inl rfl)
  ⟨h.1, h.2.1, (h.2.2 false "oops").1⟩

/-- C2: for every TranslationRequest received by the worker, exactly one
TranslationResult is emitted — the output list pairs up one-to-one with the
received requests — and on success its translated field holds the backend's
translated text while on failure it holds the classified error message. -/
theorem worker_one_result_per_request (api_url : String) (steps : List WorkerStep) :
    (workerRun api_url steps).length = steps.length ∧
    (∀ i (h1 : i < (workerRun api_url steps).length) (h2 : i < steps.length),
      ((workerRun api_url steps).get ⟨i, h1⟩).original =
        (steps.get ⟨i, h2⟩).req.text ∧
      ((workerRun api_url steps).get ⟨i, h1⟩).pos = (steps.get ⟨i, h2⟩).req.pos ∧
      (∀ t, (steps.get ⟨i, h2⟩).outcome = Except.ok t →
        ((workerRun api_url steps).get ⟨i, h1⟩).translated = t) ∧
      (∀ e, (steps.get ⟨i, h2⟩).outcome = Except.error e →
        ((workerRun api_url steps).get ⟨i, h1⟩).translated =
          classifyError (steps.get ⟨i, h2⟩).status (isLocalUrl api_url) e)) := by
  constructor
  · simp [workerRun]
  · intro i h1 h2
    simp only [workerRun, List.get_eq_getElem, List.getElem_map]
    exact processRequest_spec (isLocalUrl api_url) _ _ _

/-- Witness for C2: a success step and a failure step at concrete inputs. -/
theorem worker_one_result_per_request_witness :
    (workerRun "http://127.0.0.1:5000/translate"
      [{ req := { text := "Hello",
                  pos := { down_x := 1, down_y := 2, up_x := 3, up_y := 4 } },
         outcome := Except.ok "Halo", status := SERVER_READY }]).length = 1 ∧
    ((workerRun "http://127.0.0.1:5000/translate"
      [{ req := { text := "Hello",
                  pos := { down_x := 1, down_y := 2, up_x := 3, up_y := 4 } },
         outcome := Except.ok "Halo", status := SERVER_READY }]).get
      ⟨0, by decide⟩).translated = "Halo" :=
  ⟨(worker_one_result_per_request "http://127.0.0.1:5000/translate"
      [{ req := { text := "Hello",
                  pos := { down_x := 1, down_y := 2, up_x := 3, up_y := 4 } },
         outcome := Except.ok "Halo", status := SERVER_READY }]).1,
   ((worker_one_result_per_request "http://127.0.0.1:5000/translate"
      [{ req := { text := "Hello",
                  pos := { down_x := 1, down_y := 2, up_x := 3, up_y := 4 } },
         outcome := Except.ok "Halo", status := SERVER_READY }]).2 0
      (by decide) (by decide)).2.2.1 "Halo" rfl⟩

/-- C7: end-to-end success postcondition — for a request with text "Hello",
target language "id", and a backend responding with status 200 and body
`\x7b"translatedText":"Halo"\x7d`, the worker emits a TranslationResult with
original "Hello", translated "Halo", and the request's position unchanged. -/
theorem end_to_end_success (is_local : Bool) (status : Nat) (pos : SelectionPos)
    (source_lang : String) (api_key : Option String)
    (backend : TranslateHttpRequest → HttpResponse)
    (hb : backend { q := "Hello", source := source_lang, target := "id",
                    api_key := api_key } =
      { status := 200, body := "\x7b\"translatedText\":\"Halo\"\x7d" }) :
    processRequest is_local status { text := "Hello", pos := pos }
      (translate backend source_lang "id" api_key "Hello") =
    { original := "Hello", translated := "Halo", pos := pos } := by
  unfold translate
  rw [hb]
  rfl

/-- Witness for C7: a concrete backend returning the success body. -/
theorem end_to_end_success_witness :
    processRequest true SERVER_READY
      { text := "Hello", pos := { down_x := 1, down_y := 2, up_x := 3, up_y := 4 } }
      (translate
        (fun _ => { status := 200, body := "\x7b\"translatedText\":\"Halo\"\x7d" })
        "auto" "id" none "Hello") =
    { original := "Hello", translated := "Halo",
      pos := { down_x := 1, down_y := 2, up_x := 3, up_y := 4 } } :=
  end_to_end_success true SERVER_READY
    { down_x := 1, down_y := 2, up_x := 3, up_y := 4 } "auto" none
    (fun _ => { status := 200, body := "\x7b\"translatedText\":\"Halo\"\x7d" }) rfl

/-- C5 is false as stated: the code compares `trimmed.len()`, the UTF-8 byte
length, not the length in characters.  The single character "é" is 2 bytes,
so the code forwards it although its trimmed length in characters is 1 and
the claim says trimmed text shorter than 2 characters is never forwarded. -/
theorem capture_filter_chars_cex :
    (rustTrim "é").length = 1 ∧
    (captureStep 5000 "" (some "é")
      { down_x := 0, down_y := 0, up_x := 0, up_y := 0 }).1 =
      some { text := "é",
             pos := { down_x := 0, down_y := 0, up_x := 0, up_y := 0 } } := by
  constructor <;> decide

/-- C5 (amended): the Capture Stage forwards a grabbed clipboard text as a
TranslationRequest iff, after trimming whitespace, its length in UTF-8 bytes
is at least 2 and at most max_text_length and it differs from the single-slot
dedup cache; trimmed text outside those byte bounds is never forwarded, and
submitting identical trimmed text twice in a row produces at most one
TranslationRequest. -/
theorem capture_filter_bytes (maxLen : Nat) (last text : String)
    (pos pos2 : SelectionPos) :
    ((captureStep maxLen last (some text) pos).1.isSome = true ↔
      (2 ≤ rustLen (rustTrim text) ∧ rustLen (rustTrim text) ≤ maxLen ∧
        rustTrim text ≠ last)) ∧
    (∀ req last2, captureStep maxLen last (some text) pos = (some req, last2) →
      req.text = rustTrim text ∧ last2 = rustTrim text ∧
      (captureStep maxLen last2 (some text) pos2).1 = none) ∧
    (captureStep maxLen last none pos).1 = none := by
  refine ⟨?_, ?_, rfl⟩
  · by_cases hc : 2 ≤ rustLen (rustTrim text) ∧ rustLen (rustTrim text) ≤ maxLen ∧
        rustTrim text ≠ last
    · simp [captureStep, hc]
    · simp [captureStep, hc]
  · intro req last2 hacc
    by_cases hc : 2 ≤ rustLen (rustTrim text) ∧ rustLen (rustTrim text) ≤ maxLen ∧
        rustTrim text ≠ last
    · simp only [captureStep, if_pos hc, Prod.mk.injEq, Option.some.injEq] at hacc
      obtain ⟨hreq, hlast⟩ := hacc
      refine ⟨by rw [← hreq], hlast.symm, ?_⟩
      simp [captureStep, hlast.symm]
    · simp [captureStep, if_neg hc] at hacc

/-- Witness for C5: a concrete acceptance followed by a suppressed repeat. -/
theorem capture_filter_bytes_witness :
    ((captureStep 5000 "" (some "hi")
        { down_x := 0, down_y := 0, up_x := 0, up_y := 0 }).1.isSome = true) ∧
    (captureStep 5000 "hi" (some "hi")
        { down_x := 0, down_y := 0, up_x := 0, up_y := 0 }).1 = none :=
  have h := capture_filter_bytes 5000 "" "hi"
    { down_x := 0, down_y := 0, up_x := 0, up_y := 0 }
    { down_x := 0, down_y := 0, up_x := 0, up_y := 0 }
  ⟨h.1.mpr (by decide),
   (h.2.1 { text := "hi", pos := { down_x := 0, down_y := 0, up_x := 0, up_y := 0 } }
     "hi" (by decide)).2.2⟩

/-- Runs of the capture loop in which every grabbed text trims to the current
dedup-cache value emit no requests and leave the cache unchanged. -/
theorem captureRun_no_new (maxLen : Nat) :
    ∀ (grabs : List (Option String × SelectionPos)) (cur : String),
    (∀ gp ∈ grabs, ∀ s, gp.1 = some s → rustTrim s = cur) →
    captureRun maxLen cur grabs = ([], cur) := by
  intro grabs
  induction grabs with
  | nil => intro cur _; rfl
  | cons gp rest ih =>
    intro cur h
    obtain ⟨g, p⟩ := gp
    have hstep : captureStep maxLen cur g p = (none, cur) := by
      cases g with
      | none => rfl
      | some s =>
          have hs : rustTrim s = cur := h (some s, p) (by simp) s rfl
          simp [captureStep, hs]
    have hrest : ∀ gp ∈ rest, ∀ s, gp.1 = some s → rustTrim s = cur := by
      intro gp hm s hgs
      exact h gp (List.mem_cons_of_mem _ hm) s hgs
    simp [captureRun, hstep, ih cur hrest]

/-- C9: the dedup cache is updated at acceptance time, before the translation
outcome is known and independently of it (the capture loop takes no input from
the worker): once a request for some trimmed text is accepted, re-submitting
text that trims to the same value — as after a failed translation — produces
no new TranslationRequest for the whole run, as long as no different text is
accepted in between. -/
theorem dedup_updated_at_acceptance (maxLen : Nat) (last text : String)
    (pos : SelectionPos) (req : TranslationRequest) (last2 : String)
    (hacc : captureStep maxLen last (some text) pos = (some req, last2))
    (grabs : List (Option String × SelectionPos))
    (hsame : ∀ gp ∈ grabs, ∀ s, gp.1 = some s → rustTrim s = req.text) :
    last2 = req.text ∧ (captureRun maxLen last2 grabs).1 = [] := by
  have hreq : req.text = rustTrim text ∧ last2 = rustTrim text := by
    by_cases hc : 2 ≤ rustLen (rustTrim text) ∧ rustLen (rustTrim text) ≤ maxLen ∧
        rustTrim text ≠ last
    · simp only [captureStep, if_pos hc, Prod.mk.injEq, Option.some.injEq] at hacc
      exact ⟨by rw [← hacc.1], hacc.2.symm⟩
    · simp [captureStep, if_neg hc] at hacc
  have hl2 : last2 = req.text := by rw [hreq.2, hreq.1]
  refine ⟨hl2, ?_⟩
  rw [hl2, captureRun_no_new maxLen grabs req.text hsame]

/-- Witness for C9: after accepting "hi", repeated grabs of "hi" (and a failed
grab) emit nothing. -/
theorem dedup_updated_at_acceptance_witness :
    "hi" = ({ text := "hi",
              pos := { down_x := 0, down_y := 0, up_x := 0, up_y := 0 } } :
        TranslationRequest).text ∧
    (captureRun 5000 "hi"
      [(some "hi", { down_x := 0, down_y := 0, up_x := 0, up_y := 0 }),
       (none, { down_x := 0, down_y := 0, up_x := 0, up_y := 0 }),
       (some " hi ", { down_x := 0, down_y := 0, up_x := 0, up_y := 0 })]).1 = [] :=
  dedup_updated_at_acceptance 5000 "" "hi"
    { down_x := 0, down_y := 0, up_x := 0, up_y := 0 }
    { text := "hi", pos := { down_x := 0, down_y := 0, up_x := 0, up_y := 0 } }
    "hi" (by decide)
    [(some "hi", { down_x := 0, down_y := 0, up_x := 0, up_y := 0 }),
     (none, { down_x := 0, down_y := 0, up_x := 0, up_y := 0 }),
     (some " hi ", { down_x := 0, down_y := 0, up_x := 0, up_y := 0 })]
    (by decide)

/-- Characterization of `find?` over an ascending consecutive range: it yields
`p` iff `p` is in the window, satisfies the predicate, and every earlier port
of the window fails it. -/
theorem find_range_iff (c : Nat → Bool) :
    ∀ (n s p : Nat), ((List.range' s n).find? c = some p ↔
      (s ≤ p ∧ p < s + n ∧ c p = true ∧ ∀ q, s ≤ q → q < p → c q = false)) := by
  intro n
  induction n with
  | zero =>
      intro s p
      constructor
      · intro h
        simp [List.range'] at h
      · rintro ⟨h1, h2, -, -⟩
        omega
  | succ n ih =>
      intro s p
      rw [List.range'_succ]
      cases hcs : c s with
      | true =>
          rw [List.find?_cons_of_pos _ hcs]
          constructor
          · intro h
            have hp : s = p := Option.some.inj h
            subst hp
            exact ⟨Nat.le_refl _, by omega, hcs, fun q hq1 hq2 => absurd hq1 (by omega)⟩
          · rintro ⟨h1, h2, h3, h4⟩
            by_cases hps : p = s
            · rw [hps]
            · have hfalse : c s = false := h4 s (Nat.le_refl _) (by omega)
              rw [hcs] at hfalse
              cases hfalse
      | false =>
          rw [List.find?_cons_of_neg _ (by simp [hcs]), ih (s + 1) p]
          constructor
          · rintro ⟨h1, h2, h3, h4⟩
            refine ⟨by omega, by omega, h3, ?_⟩
            intro q hq1 hq2
            rcases Nat.eq_or_lt_of_le hq1 with hq | hq
            · rw [← hq]
              exact hcs
            · exact h4 q hq hq2
          · rintro ⟨h1, h2, h3, h4⟩
            have hps : p ≠ s := by
              intro he
              rw [he, hcs] at h3
              cases h3
            refine ⟨by omega, by omega, h3, ?_⟩
            intro q hq1 hq2
            exact h4 q (by omega) hq2

/-- C3: port negotiation probes exactly the 10 consecutive ports
preferred..preferred+9 in ascending order and selects the first one on which
the TCP connect fails; if preferred..preferred+8 are all occupied and
preferred+9 is free, preferred+9 is selected; if all 10 are occupied,
start_impl fails with the PortExhausted error and no server is spawned. -/
theorem port_negotiation (connectOk : Nat → Bool) (preferred : Nat) :
    (∀ p, findPort connectOk preferred = some p ↔
      (preferred ≤ p ∧ p < preferred + 10 ∧ connectOk p = false ∧
        ∀ q, preferred ≤ q → q < p → connectOk q = true)) ∧
    ((∀ i, i < 9 → connectOk (preferred + i) = true) →
      connectOk (preferred + 9) = false →
      start_impl true true connectOk preferred =
        Except.ok { port := preferred + 9 }) ∧
    ((∀ i, i < 10 → connectOk (preferred + i) = true) →
      start_impl true true connectOk preferred =
        Except.error StartError.portExhausted) := by
  have hchar : ∀ p, findPort connectOk preferred = some p ↔
      (preferred ≤ p ∧ p < preferred + 10 ∧ connectOk p = false ∧
        ∀ q, preferred ≤ q → q < p → connectOk q = true) := by
    intro p
    rw [findPort, find_range_iff (is_port_available connectOk) 10 preferred p]
    simp [is_port_available]
  refine ⟨hchar, ?_, ?_⟩
  · intro h9 hfree
    have hfp : findPort connectOk preferred = some (preferred + 9) := by
      rw [hchar]
      refine ⟨by omega, by omega, hfree, ?_⟩
      intro q hq1 hq2
      have hi : q - preferred < 9 := by omega
      have := h9 (q - preferred) hi
      rwa [Nat.add_sub_cancel' hq1] at this
    simp [start_impl, hfp]
  · intro h10
    have hfp : findPort connectOk preferred = none := by
      rw [findPort]
      apply List.find?_eq_none.mpr
      intro x hx
      rw [List.mem_range'_1] at hx
      have hocc : connectOk x = true := by
        have := h10 (x - preferred) (by omega)
        rwa [Nat.add_sub_cancel' hx.1] at this
      simp [is_port_available, hocc]
    simp [start_impl, hfp]

/-- Witness for C3: with ports 5000..5008 occupied and 5009 free the server
binds 5009; with every port occupied startup fails with PortExhausted. -/
theorem port_negotiation_witness :
    start_impl true true (fun p => decide (p < 5009)) 5000 =
      Except.ok { port := 5009 } ∧
    start_impl true true (fun _ => true) 5000 =
      Except.error StartError.portExhausted :=
  ⟨(port_negotiation (fun p => decide (p < 5009)) 5000).2.1 (by decide) (by decide),
   (port_negotiation (fun _ => true) 5000).2.2 (fun _ _ => rfl)⟩

/-- A monitor iteration whose observation is non-terminal writes nothing and
continues with the rest of the trace. -/
theorem monitorWrites_cons_nonterminal (o : MonitorObs) (rest : List MonitorObs)
    (h : terminalObs o = false) :
    monitorWrites (o :: rest) = monitorWrites rest := by
  obtain ⟨ex, pb, el⟩ := o
  simp only [terminalObs, Bool.or_eq_false_iff, Bool.not_eq_false',
    beq_iff_eq, decide_eq_false_iff_not] at h
  obtain ⟨⟨h1, h3⟩, h2⟩ := h
  subst h1
  subst h3
  simp [monitorWrites, h2]

/-- A monitor iteration whose observation is terminal writes exactly the
status determined by that observation and stops: the rest of the trace is
never examined. -/
theorem monitorWrites_cons_terminal (o : MonitorObs) (rest : List MonitorObs)
    (h : terminalObs o = true) :
    monitorWrites (o :: rest) = [writeOf o] := by
  obtain ⟨ex, pb, el⟩ := o
  cases ex <;> cases pb <;> simp_all [terminalObs, monitorWrites, writeOf]

/-- The monitor performs at most one status write on any trace. -/
theorem monitorWrites_length_le_one (obs : List MonitorObs) :
    (monitorWrites obs).length ≤ 1 := by
  induction obs with
  | nil => simp [monitorWrites]
  | cons o rest ih =>
      by_cases ht : terminalObs o = true
      · rw [monitorWrites_cons_terminal o rest ht]
        simp
      · have hf : terminalObs o = false := by
          revert ht
          cases terminalObs o <;> simp
        rw [monitorWrites_cons_nonterminal o rest hf]
        exact ih

/-- C4: the readiness monitor's status updates are terminal and monotonic: it
performs at most one write on any trace; on the first terminal observation it
writes exactly once — SERVER_READY iff the process was still running and the
liveness probe succeeded, SERVER_FAILED on process exit, failed exit check, or
elapsed time over the 180s budget — and the remainder of the trace after that
write is never examined; a trace with no terminal observation produces no
write at all. -/
theorem monitor_terminal_monotonic :
    (∀ obs : List MonitorObs, (monitorWrites obs).length ≤ 1) ∧
    (∀ (pre : List MonitorObs) (o : MonitorObs) (rest : List MonitorObs),
      (∀ x ∈ pre, terminalObs x = false) → terminalObs o = true →
      monitorWrites (pre ++ o :: rest) = [writeOf o]) ∧
    (∀ obs : List MonitorObs, (∀ x ∈ obs, terminalObs x = false) →
      monitorWrites obs = []) ∧
    (∀ o : MonitorObs, writeOf o = SERVER_READY ↔
      (o.exit = ExitCheck.running ∧ o.probeOk = true)) := by
  refine ⟨monitorWrites_length_le_one, ?_, ?_, ?_⟩
  · intro pre
    induction pre with
    | nil =>
        intro o rest _ ht
        exact monitorWrites_cons_terminal o rest ht
    | cons x xs ih =>
        intro o rest hpre ht
        rw [List.cons_append,
          monitorWrites_cons_nonterminal x _ (hpre x (by simp)),
          ih o rest (fun y hy => hpre y (List.mem_cons_of_mem _ hy)) ht]
  · intro obs
    induction obs with
    | nil => intro _; rfl
    | cons o rest ih =>
        intro h
        rw [monitorWrites_cons_nonterminal o rest (h o (by simp)),
          ih (fun y hy => h y (List.mem_cons_of_mem _ hy))]
  · intro o
    obtain ⟨ex, pb, el⟩ := o
    cases ex <;> cases pb <;>
      simp [writeOf, SERVER_READY, SERVER_FAILED]

/-- Witness for C4: one non-terminal iteration followed by a successful
liveness probe yields the single write SERVER_READY. -/
theorem monitor_terminal_monotonic_witness :
    monitorWrites
      [{ exit := ExitCheck.running, probeOk := false, elapsedMs := 2000 },
       { exit := ExitCheck.running, probeOk := true, elapsedMs := 4000 },
       { exit := ExitCheck.exited, probeOk := false, elapsedMs := 6000 }] =
      [writeOf { exit := ExitCheck.running, probeOk := true, elapsedMs := 4000 }] ∧
    writeOf { exit := ExitCheck.running, probeOk := true, elapsedMs := 4000 } =
      SERVER_READY :=
  ⟨monitor_terminal_monotonic.2.1
    [{ exit := ExitCheck.running, probeOk := false, elapsedMs := 2000 }]
    { exit := ExitCheck.running, probeOk := true, elapsedMs := 4000 }
    [{ exit := ExitCheck.exited, probeOk := false, elapsedMs := 6000 }]
    (by decide) (by decide),
   (monitor_terminal_monotonic.2.2.2
     { exit := ExitCheck.running, probeOk := true, elapsedMs := 4000 }).mpr
     ⟨rfl, rfl⟩⟩

/-- Handling a drag SelectionDone (displacement over 5px) while monitoring:
the pending position is overwritten and the debounce timer is armed at the
event's time; the click-tracking fields are untouched. -/
theorem onSelectionDone_drag (dbl now : Nat) (st : DebounceState)
    (p : SelectionPos)
    (hd : 5 < (p.up_x - p.down_x).natAbs ∨ 5 < (p.up_y - p.down_y).natAbs) :
    onSelectionDone dbl true st now p =
      { st with pending_pos := p, debounce_start := some now } := by
  simp [onSelectionDone, hd]

/-- Folding a burst of drag selections: only the most recent position and
arming time survive. -/
theorem processSelections_drag (dbl : Nat) :
    ∀ (events : List (Nat × SelectionPos)) (st : DebounceState)
      (tN : Nat) (pN : SelectionPos),
    (∀ e ∈ events,
      5 < (e.2.up_x - e.2.down_x).natAbs ∨ 5 < (e.2.up_y - e.2.down_y).natAbs) →
    (5 < (pN.up_x - pN.down_x).natAbs ∨ 5 < (pN.up_y - pN.down_y).natAbs) →
    processSelections dbl true st (events ++ [(tN, pN)]) =
      { st with pending_pos := pN, debounce_start := some tN } := by
  intro events
  induction events with
  | nil =>
      intro st tN pN _ hN
      simp [processSelections, onSelectionDone_drag dbl tN st pN hN]
  | cons e rest ih =>
      intro st tN pN hall hN
      have he := hall e (by simp)
      have step : processSelections dbl true st ((e :: rest) ++ [(tN, pN)]) =
          processSelections dbl true (onSelectionDone dbl true st e.1 e.2)
            (rest ++ [(tN, pN)]) := rfl
      rw [step, onSelectionDone_drag dbl e.1 st e.2 he,
        ih _ tN pN (fun x hx => hall x (List.mem_cons_of_mem _ hx)) hN]

/-- C6: the Selection Debouncer coalesces bursts: over any sequence of drag
selection-done events, re-arming overwrites the pending target so that the
final state carries the most recent position and arming time; on timer elapse
exactly one settled signal is emitted carrying that most recent position and
the timer is disarmed, after which a further timer check emits nothing; the
debounce interval is poll_interval_ms with a floor of 50 milliseconds. -/
theorem debounce_coalescing (dbl poll : Nat) (st0 : DebounceState)
    (events : List (Nat × SelectionPos)) (tN now : Nat) (pN : SelectionPos)
    (hall : ∀ e ∈ events,
      5 < (e.2.up_x - e.2.down_x).natAbs ∨ 5 < (e.2.up_y - e.2.down_y).natAbs)
    (hN : 5 < (pN.up_x - pN.down_x).natAbs ∨ 5 < (pN.up_y - pN.down_y).natAbs)
    (helapsed : debounceMs poll ≤ now - tN) :
    processSelections dbl true st0 (events ++ [(tN, pN)]) =
      { st0 with pending_pos := pN, debounce_start := some tN } ∧
    timerFire poll (processSelections dbl true st0 (events ++ [(tN, pN)])) now =
      (some pN, { st0 with pending_pos := pN, debounce_start := none }) ∧
    (timerFire poll { st0 with pending_pos := pN, debounce_start := none } now).1 =
      none ∧
    debounceMs poll = max poll 50 := by
  have hfinal := processSelections_drag dbl events st0 tN pN hall hN
  refine ⟨hfinal, ?_, ?_, rfl⟩
  · rw [hfinal]
    simp [timerFire, helapsed]
  · simp [timerFire]

/-- Witness for C6: a two-event burst at a concrete configuration. -/
theorem debounce_coalescing_witness :
    timerFire 100
      (processSelections 500 true
        { debounce_start := none,
          pending_pos := { down_x := 0, down_y := 0, up_x := 0, up_y := 0 },
          last_click_time := none, last_click_x := 0, last_click_y := 0 }
        ([(0, { down_x := 0, down_y := 0, up_x := 10, up_y := 0 })] ++
          [(5, { down_x := 0, down_y := 0, up_x := 20, up_y := 0 })])) 200 =
      (some { down_x := 0, down_y := 0, up_x := 20, up_y := 0 },
       { debounce_start := none,
         pending_pos := { down_x := 0, down_y := 0, up_x := 20, up_y := 0 },
         last_click_time := none, last_click_x := 0, last_click_y := 0 }) :=
  (debounce_coalescing 500 100
    { debounce_start := none,
      pending_pos := { down_x := 0, down_y := 0, up_x := 0, up_y := 0 },
      last_click_time := none, last_click_x := 0, last_click_y := 0 }
    [(0, { down_x := 0, down_y := 0, up_x := 10, up_y := 0 })] 5 200
    { down_x := 0, down_y := 0, up_x := 20, up_y := 0 }
    (by decide) (by decide) (by decide)).2.1

end ScreenTranslate
